import Mathlib

/-!
# Verification of the BPMN + KPI dashboard core (src/app.py)

A shallow embedding of the binding/reconciliation core of the Streamlit
application `app.py`:

* the XML element tree produced by `xml.etree.ElementTree` is modelled by
  the inductive type `XmlElem` (tags carry the expanded namespace form
  used by ElementTree); the outcome of `ET.fromstring` on a text is an
  explicit `Except` value, since the stdlib parser itself is a library
  external to the repository;
* Python dict attribute access becomes association-list lookup;
* network calls (`requests.get` / `requests.head`) become explicit
  `Except` inputs describing the response or the network failure;
* `pandas.read_csv` is modelled by a basic tabular parser `read_csv`
  (header row, comma split, a data line with more fields than the header
  is a parse error, shorter lines are padded — the single-extra-field
  index inference of pandas is not modelled, no claim touches it);
* Python truthiness of strings (`""` is falsy) and of `None` is kept
  everywhere it is used by the source (`a or b`, `if tok:`, `if nm:`,
  `if props:`).

Definitions follow the source line by line; theorems settle the frozen
claims about the spec.
-/

namespace ProcessFlowDashboard

/-! ## XML element tree (model of `xml.etree.ElementTree` values) -/

/-- An XML element as ElementTree exposes it: a tag (in the expanded
`\x7buri\x7dlocal` form for namespaced elements), an attribute mapping and the
list of child elements in document order. -/
inductive XmlElem : Type where
  | node (tag : String) (attrs : List (String × String)) (children : List XmlElem)

def XmlElem.tag : XmlElem → String
  | .node t _ _ => t

def XmlElem.attrs : XmlElem → List (String × String)
  | .node _ a _ => a

def XmlElem.children : XmlElem → List XmlElem
  | .node _ _ c => c

/-- `d.get(k)` on an attribute dict: the value at key `k`, if present. -/
def attrGet (attrs : List (String × String)) (k : String) : Option String :=
  (attrs.find? (fun p => p.1 = k)).map (fun p => p.2)

/-- `d.get(k, default)` on an attribute dict. -/
def attrGetD (attrs : List (String × String)) (k default : String) : String :=
  (attrGet attrs k).getD default

mutual

/-- All proper descendants of an element, in document order (the order
`ElementTree` iteration produces). -/
def descendants : XmlElem → List XmlElem
  | .node _ _ cs => descendantsList cs

/-- Helper for `descendants`: each element of the list followed by its own
descendants. -/
def descendantsList : List XmlElem → List XmlElem
  | [] => []
  | c :: cs => c :: (descendants c ++ descendantsList cs)

end

/-- The BPMN model namespace URI (`ns["bpmn"]` in the source). -/
def bpmnNS : String := "http://www.omg.org/spec/BPMN/20100524/MODEL"

/-- The camunda namespace URI (`ns["camunda"]` in the source). -/
def camundaNS : String := "http://camunda.org/schema/1.0/bpmn"

/-- Expanded tag `bpmn:process` as ElementTree stores it. -/
def processTag : String := "\x7b" ++ bpmnNS ++ "\x7d" ++ "process"

/-- Expanded tag `camunda:property` as ElementTree stores it. -/
def camundaPropertyTag : String := "\x7b" ++ camundaNS ++ "\x7d" ++ "property"

/-- The explicitly namespaced `name` attribute key checked by the source
(`el.attrib.get("\x7bhttp://...MODEL\x7dname")`). -/
def nsNameKey : String := "\x7b" ++ bpmnNS ++ "\x7d" ++ "name"

/-- `root.findall(".//bpmn:process//*[@id]", ns)`: for every `bpmn:process`
descendant of the root, in document order, all of its proper descendants
that carry an `id` attribute. -/
def processElems (root : XmlElem) : List XmlElem :=
  ((descendants root).filter (fun el => el.tag = processTag)).flatMap
    (fun p => (descendants p).filter (fun el => (attrGet el.attrs "id").isSome))

/-! ## Diagram annotation extractor (`parse_kpi_properties`, `extract_named_tasks`) -/

/-- Python `a or b` on an optional string and a string: `a` when it is a
truthy (non-empty) string, else `b`.  Used for
`el.attrib.get("name") or el.attrib.get(nsNameKey, "")`. -/
def pyOrStr (a : Option String) (b : String) : String :=
  match a with
  | some s => if s = "" then b else s
  | none => b

/-- Python `a or b` on two optional strings (`None` and `""` are falsy).
Used for `el.attrib.get("name") or el.attrib.get(nsNameKey)`. -/
def pyOrOpt (a b : Option String) : Option String :=
  match a with
  | some s => if s = "" then b else some s
  | none => b

/-- `el_name` resolution in `parse_kpi_properties`:
`el.attrib.get("name") or el.attrib.get(nsNameKey, "")`. -/
def resolveElementName (attrs : List (String × String)) : String :=
  pyOrStr (attrGet attrs "name") (attrGetD attrs nsNameKey "")

/-- `nm` resolution in `extract_named_tasks`:
`el.attrib.get("name") or el.attrib.get(nsNameKey)`. -/
def resolveTaskName (attrs : List (String × String)) : Option String :=
  pyOrOpt (attrGet attrs "name") (attrGet attrs nsNameKey)

/-- The `camunda:property` name/value pairs below an element, in document
order: `el.findall(".//camunda:property", ns)` with each property's
`name`/`value` attributes (defaulting to `""`). -/
def elementProperties (el : XmlElem) : List (String × String) :=
  ((descendants el).filter (fun p => p.tag = camundaPropertyTag)).map
    (fun p => (attrGetD p.attrs "name" "", attrGetD p.attrs "value" ""))

/-- `props.get(k, "")` where `props` is the dict built by successive
assignment: the last pair for the key wins, `""` when the key is absent. -/
def propsGet (props : List (String × String)) (k : String) : String :=
  ((props.reverse.find? (fun p => p.1 = k)).map (fun p => p.2)).getD ""

/-- One row of the DataFrame built by `parse_kpi_properties`. -/
structure AnnotationRow where
  element_id : String
  element_name : String
  kpi_key : String
  kpi_target : String
  owner : String
deriving DecidableEq, Repr

/-- The rows `parse_kpi_properties` appends: one per process element with at
least one `camunda:property`, in document order. -/
def annotationRows (root : XmlElem) : List AnnotationRow :=
  (processElems root).filterMap (fun el =>
    let props := elementProperties el
    if props.isEmpty then none
    else some
      { element_id := attrGetD el.attrs "id" ""
        element_name := resolveElementName el.attrs
        kpi_key := propsGet props "kpi_key"
        kpi_target := propsGet props "kpi_target"
        owner := propsGet props "owner" })

/-- Python truthiness filter on an optional string: the value when it is a
non-empty string, nothing otherwise (`if nm:` keeps exactly these). -/
def truthyOpt : Option String → Option String
  | some s => if s = "" then none else some s
  | none => none

/-- The `names` list of `extract_named_tasks` before deduplication: the
resolved name of each process element whose resolved name is truthy
(`if nm:`), in document order. -/
def collectNames (root : XmlElem) : List String :=
  (processElems root).filterMap (fun el => truthyOpt (resolveTaskName el.attrs))

/-- The dedupe loop of `extract_named_tasks`: `seen` is the set of names
already emitted; a name not yet seen is emitted (the source appends it to
`out`) before the rest of the list is processed. -/
def dedupeGo (seen : List String) : List String → List String
  | [] => []
  | n :: ns => if n ∈ seen then dedupeGo seen ns else n :: dedupeGo (n :: seen) ns

/-- `# dedupe preserving order` loop of `extract_named_tasks`. -/
def dedupe (ns : List String) : List String :=
  dedupeGo [] ns

/-! ## Error kinds

Each Lean constructor stands for a distinct Python exception class reaching
the caller: `malformedDiagram` for `xml.etree.ElementTree.ParseError`,
`sourceUnavailable` for the `requests` network/HTTP errors.  Distinct
constructors model distinct, distinguishable exception classes. -/

inductive AppError : Type where
  | malformedDiagram (msg : String)
  | sourceUnavailable (msg : String)
deriving DecidableEq, Repr

/-- `parse_kpi_properties(bpmn_xml)`.  The outcome of `ET.fromstring` on the
input text is the explicit argument `parsed` (the stdlib XML parser is a
library external to the repository): a `ParseError` raised there propagates
uncaught out of the function, which is the `malformedDiagram` error; on a
parsed tree the function returns the annotation rows. -/
def parse_kpi_properties (parsed : Except String XmlElem) :
    Except AppError (List AnnotationRow) :=
  match parsed with
  | .error m => .error (.malformedDiagram m)
  | .ok root => .ok (annotationRows root)

/-- `extract_named_tasks(bpmn_xml)`, with the `ET.fromstring` outcome as the
explicit argument `parsed`, as for `parse_kpi_properties`. -/
def extract_named_tasks (parsed : Except String XmlElem) :
    Except AppError (List String) :=
  match parsed with
  | .error m => .error (.malformedDiagram m)
  | .ok root => .ok (dedupe (collectNames root))

/-! ## CSV tables (model of the pandas DataFrames the source builds) -/

/-- A parsed tabular file: header column names and data rows. -/
structure Csv where
  header : List String
  rows : List (List String)
deriving DecidableEq, Repr

/-- Split a character list at every occurrence of `sep` (the splitting
underlying `str.split` / line splitting; `"".split` gives one empty
field, a trailing separator a trailing empty field). -/
def splitOnChar (sep : Char) : List Char → List (List Char)
  | [] => [[]]
  | c :: cs =>
    if c = sep then [] :: splitOnChar sep cs
    else
      match splitOnChar sep cs with
      | [] => [[c]]
      | g :: gs => (c :: g) :: gs

/-- The lines of a text (split at newline characters). -/
def splitLines (s : String) : List String :=
  (splitOnChar '\n' s.data).map (fun l => ⟨l⟩)

/-- The comma-separated fields of a line. -/
def splitComma (s : String) : List String :=
  (splitOnChar ',' s.data).map (fun l => ⟨l⟩)

/-- Python `str.strip()`: the string with leading and trailing whitespace
removed. -/
def pyStrip (s : String) : String :=
  ⟨((s.data.dropWhile Char.isWhitespace).reverse.dropWhile Char.isWhitespace).reverse⟩

/-- Model of `pandas.read_csv` on a text, as used by `load_csv_safe` and the
AI suggestion block (library code external to the repository): blank lines
are skipped, the first remaining line is the header, every other line is a
comma-split data row; empty input and a data line with more fields than the
header are parse errors (pandas `EmptyDataError` / `ParserError`); shorter
data lines are padded (pandas fills NaN).  pandas' single-extra-field
index-column inference is not modelled; no claim depends on it. -/
def read_csv (text : String) : Except String Csv :=
  match (splitLines text).filter (fun l => l ≠ "") with
  | [] => .error "EmptyDataError: no columns to parse from file"
  | h :: rest =>
    if (rest.map splitComma).all
        (fun r => r.length ≤ (splitComma h).length) then
      .ok { header := splitComma h
            rows := (rest.map splitComma).map
              (fun r => r ++ List.replicate ((splitComma h).length - r.length) "") }
    else .error "ParserError: error tokenizing data"

/-! ## Remote source accessor (`_auth_headers_json`, `head_exists`) -/

/-- `USE_GITHUB_TOKEN` configuration constant of the source. -/
def USE_GITHUB_TOKEN : Bool := false

/-- `_auth_headers_json()`, parameterised by the `USE_GITHUB_TOKEN` flag and
by `st.secrets.get("GITHUB_TOKEN")` (`none` when the secret store has no
such key).  Python truthiness: `if tok:` rejects both `None` and the empty
string, so only a non-empty token attaches the `Authorization` header. -/
def auth_headers_json (useGithubToken : Bool) (secretToken : Option String) :
    List (String × String) :=
  let h := [("Accept", "application/vnd.github+json")]
  if useGithubToken then
    match secretToken with
    | some tok => if tok = "" then h else h ++ [("Authorization", "Bearer " ++ tok)]
    | none => h
  else h

/-- A completed HTTP response (only the status code matters to the core). -/
structure HttpResponse where
  status : Nat
deriving DecidableEq, Repr

/-- A network-level failure of a `requests` call: the request never
completed with a status (connection error or timeout). -/
inductive NetError : Type where
  | timeout
  | connectionError
deriving DecidableEq, Repr

/-- `head_exists(url)`: the outcome of `requests.head` is the explicit
argument `probe`.  The body compares the status code with 200; there is no
`try`/`except` in the source, so a network failure raised by `requests.head`
propagates to the caller — modelled by the error passing through. -/
def head_exists (probe : Except NetError HttpResponse) : Except NetError Bool :=
  match probe with
  | .error e => .error e
  | .ok r => .ok (r.status == 200)

/-! ## KPI table load and reconciliation (module level of `app.py`) -/

/-- The `kpis_df` load step (lines 196–202): `kpis_df = None`; when
`head_exists` answers true the CSV fetch+parse is attempted, and a failure
is caught (`st.warning`) leaving `kpis_df = None`.  Returns the resulting
`kpis_df` and whether a warning was surfaced. -/
def loadKpis (exists_ : Bool) (fetched : Except AppError Csv) : Option Csv × Bool :=
  if exists_ then
    match fetched with
    | .ok df => (some df, false)
    | .error _ => (none, true)
  else (none, false)

/-- The table state the KPI Mapping section presents. -/
inductive ReconciledView : Type where
  | externalTable (t : Csv)
  | annotationTable (rows : List AnnotationRow)
  | noData
deriving DecidableEq, Repr

/-- The KPI Mapping decision (lines 230–240): `if kpis_df is not None`
present it; `elif not map_df.empty` present the annotation table; `else`
the explicit `st.info` no-data message. -/
def reconcile (kpis_df : Option Csv) (map_df : List AnnotationRow) : ReconciledView :=
  match kpis_df with
  | some t => .externalTable t
  | none => if map_df.isEmpty then .noData else .annotationTable map_df

/-! ## Artifact path derivation (lines 180–183) -/

/-- `s.rsplit(".", 1)[0]` on the character list: everything before the last
dot, the whole string when no dot occurs. -/
def stemChars : List Char → List Char
  | [] => []
  | c :: cs => if c = '.' ∧ '.' ∉ cs then [] else c :: stemChars cs

/-- `base = bpmn_name.rsplit(".", 1)[0]`. -/
def stem (s : String) : String :=
  ⟨stemChars s.data⟩

/-- `KPI_PATH = f"\x7bfolder\x7d/\x7bbase\x7d_kpis.csv"`: the conventional KPI
artifact path derived from the selected folder and BPMN file name.  A pure
function of its two arguments. -/
def kpi_path (folder bpmn_name : String) : String :=
  folder ++ "/" ++ stem bpmn_name ++ "_kpis.csv"

/-! ## AI suggestion parsing (lines 279–284) -/

/-- `csv_text = resp...content.strip(); gen_df = pd.read_csv(StringIO(csv_text))`:
the suggestion-service response text is stripped and parsed as CSV.  The
source checks nothing else — in particular no required column. -/
def suggestionParse (text : String) : Except String Csv :=
  read_csv (pyStrip text)

/-- Number of data lines of the stripped response text: non-blank lines
after the header. -/
def csvDataLineCount (text : String) : Nat :=
  ((splitLines (pyStrip text)).filter (fun l => l ≠ "")).length - 1

/-! ## Spec-side definitions (refinement targets, written from the spec's
words, to be compared with the source-derived definitions above) -/

/-- First-occurrence deduplication as the spec words it: keep each string
the first time it appears, drop every later duplicate. -/
def firstOccurrenceDedup : List String → List String
  | [] => []
  | x :: xs => x :: firstOccurrenceDedup (xs.filter (fun y => y ≠ x))
termination_by l => l.length
decreasing_by simp_wf; exact Nat.lt_succ_of_le (List.length_filter_le _ _)

/-- The columns of the annotation-row table, in order. -/
def annotationColumns : List String :=
  ["element_id", "element_name", "kpi_key", "kpi_target", "owner"]

/-- The named field of an annotation row. -/
def annotationField (r : AnnotationRow) : String → String
  | "element_id" => r.element_id
  | "element_name" => r.element_name
  | "kpi_key" => r.kpi_key
  | "kpi_target" => r.kpi_target
  | "owner" => r.owner
  | _ => ""

/-- Written from the spec's words (this operation does not occur in the
source): the left-join of the external table with the annotation rows on
`kpi_key` — every external row preserved, annotation rows whose `kpi_key`
matches no external row dropped, matched rows carrying the columns of both
sources (annotation columns are appended; an external row without a match
gets empty values there). -/
def leftJoinSpec (ext : Csv) (anns : List AnnotationRow) : Csv :=
  let extraCols := annotationColumns.filter (fun c => c ∉ ext.header)
  let keyIdx := ext.header.indexOf "kpi_key"
  { header := ext.header ++ extraCols
    rows := ext.rows.map (fun r =>
      match anns.find? (fun a => a.kpi_key = r.getD keyIdx "") with
      | some a => r ++ extraCols.map (annotationField a)
      | none => r ++ extraCols.map (fun _ => "")) }

/-! ## Concrete example inputs used by the counterexample and witness
theorems -/

/-- A process element `<task id=.. name=..>` with no nested properties. -/
def taskEl (id name : String) : XmlElem :=
  .node "task" [("id", id), ("name", name)] []

/-- A diagram whose process elements carry the names A, B, A, C in document
order (the spec's own dedup example). -/
def diagramABAC : XmlElem :=
  .node "definitions" []
    [.node processTag [("id", "p1")]
      [taskEl "t1" "A", taskEl "t2" "B", taskEl "t3" "A", taskEl "t4" "C"]]

/-- A process element whose default-namespace `name` attribute is present
but empty while the namespaced `name` attribute is `"X"`. -/
def emptyNameTask : XmlElem :=
  .node "task" [("id", "t1"), ("name", ""), (nsNameKey, "X")] []

/-- A diagram containing only `emptyNameTask` inside the process. -/
def diagramEmptyName : XmlElem :=
  .node "definitions" []
    [.node processTag [("id", "p1")] [emptyNameTask]]

/-- The spec's merge-correctness external table: one row with key `"a"`. -/
def extExample : Csv :=
  { header := ["kpi_key", "target"], rows := [["a", "5"]] }

/-- The spec's merge-correctness annotation rows: keys `"a"` (owner X) and
`"b"` (owner Y). -/
def annsExample : List AnnotationRow :=
  [{ element_id := "e1", element_name := "", kpi_key := "a", kpi_target := "", owner := "X" },
   { element_id := "e2", element_name := "", kpi_key := "b", kpi_target := "", owner := "Y" }]

/-! ## Helper lemmas -/

theorem firstOccurrenceDedup_cons (x : String) (xs : List String) :
    firstOccurrenceDedup (x :: xs)
      = x :: firstOccurrenceDedup (xs.filter (fun y => y ≠ x)) := by
  simp [firstOccurrenceDedup]

theorem dedupeGo_eq (ns : List String) :
    ∀ seen, dedupeGo seen ns
      = firstOccurrenceDedup (ns.filter (fun n => n ∉ seen)) := by
  induction ns with
  | nil => intro seen; simp [dedupeGo, firstOccurrenceDedup]
  | cons n ns ih =>
    intro seen
    by_cases h : n ∈ seen
    · simp [dedupeGo, h, ih]
    · have hfilter : (n :: ns).filter (fun m => m ∉ seen)
          = n :: ns.filter (fun m => m ∉ seen) := by
        simp [List.filter_cons, h]
      rw [hfilter, firstOccurrenceDedup_cons]
      have hstep : dedupeGo seen (n :: ns) = n :: dedupeGo (n :: seen) ns := by
        simp [dedupeGo, h]
      rw [hstep, ih]
      congr 1
      rw [List.filter_filter]
      congr 1
      apply List.filter_congr
      intro a _
      simp [List.mem_cons, not_or, Bool.and_comm]

/-- The source's dedupe loop computes exactly the spec's first-occurrence
deduplication. -/
theorem dedupe_eq_firstOccurrence (ns : List String) :
    dedupe ns = firstOccurrenceDedup ns := by
  rw [dedupe, dedupeGo_eq]
  congr 1
  simp

theorem mem_firstOccurrenceDedup {a : String} :
    ∀ l, a ∈ firstOccurrenceDedup l → a ∈ l := by
  intro l
  induction l using firstOccurrenceDedup.induct with
  | case1 => simp [firstOccurrenceDedup]
  | case2 x xs ih =>
    rw [firstOccurrenceDedup_cons]
    intro h
    rcases List.mem_cons.mp h with h | h
    · simp [h]
    · exact List.mem_cons_of_mem _ (List.mem_of_mem_filter (ih h))

theorem nodup_firstOccurrenceDedup :
    ∀ l : List String, (firstOccurrenceDedup l).Nodup := by
  intro l
  induction l using firstOccurrenceDedup.induct with
  | case1 => simp [firstOccurrenceDedup]
  | case2 x xs ih =>
    rw [firstOccurrenceDedup_cons]
    refine List.nodup_cons.mpr ⟨fun hmem => ?_, ih⟩
    have := List.of_mem_filter (mem_firstOccurrenceDedup _ hmem)
    simp at this

/-! ## Claim theorems -/

/-- C1 (counterexample): on the spec's own merge example — external table
with one row for key `"a"`, annotation rows for keys `"a"` (owner X) and
`"b"` (owner Y) — the KPI Mapping section presents the fetched external
table exactly as loaded, and that table is not the left-join of the two
sources: the joined table would carry the annotation columns (e.g.
`owner`), the presented one does not.  The claim that the presented view is
the left-join is therefore false on the code. -/
theorem reconcile_not_left_join :
    reconcile (some extExample) annsExample = ReconciledView.externalTable extExample
      ∧ extExample ≠ leftJoinSpec extExample annsExample
      ∧ (leftJoinSpec extExample annsExample).header
          = ["kpi_key", "target", "element_id", "element_name", "kpi_target", "owner"]
      ∧ extExample.header = ["kpi_key", "target"] := by
  refine ⟨rfl, by decide, by decide, rfl⟩

/-- C1 (amended): whenever an external KPI table was successfully fetched,
the KPI Mapping section presents it unmodified; the annotation rows are
never merged into it (the source performs no join at all). -/
theorem reconcile_presents_external_unmodified :
    ∀ (t : Csv) (anns : List AnnotationRow),
      reconcile (some t) anns = ReconciledView.externalTable t := by
  intro t anns
  rfl

/-- C2: the KPI Mapping decision follows the strict order of the spec — a
successfully fetched external table is always presented (annotation rows
never override it); with no external table, a non-empty annotation table is
presented; otherwise the explicit no-data state, which is a different
constructor from any table (in particular from an empty annotation table),
is presented. -/
theorem reconcile_decision_policy :
    (∀ (t : Csv) (m : List AnnotationRow),
        reconcile (some t) m = ReconciledView.externalTable t)
      ∧ (∀ m : List AnnotationRow,
          reconcile none m
            = if m.isEmpty then ReconciledView.noData
              else ReconciledView.annotationTable m)
      ∧ (∀ m : List AnnotationRow,
          ReconciledView.noData ≠ ReconciledView.annotationTable m)
      ∧ (∀ t : Csv, ReconciledView.noData ≠ ReconciledView.externalTable t) := by
  refine ⟨fun t m => rfl, fun m => rfl, fun m h => ?_, fun t h => ?_⟩
  · cases h
  · cases h

/-- Witness for `reconcile_decision_policy` at concrete inputs. -/
theorem reconcile_decision_policy_witness :
    reconcile (some extExample) annsExample = ReconciledView.externalTable extExample
      ∧ reconcile none ([] : List AnnotationRow) = ReconciledView.noData
      ∧ ReconciledView.noData ≠ ReconciledView.annotationTable [] :=
  ⟨reconcile_decision_policy.1 extExample annsExample,
   (reconcile_decision_policy.2.1 []).trans rfl,
   reconcile_decision_policy.2.2.1 []⟩

/-- C3: on any text on which the XML parser fails, both
`parse_kpi_properties` and `extract_named_tasks` fail with the
`malformedDiagram` error kind (the uncaught `ET.ParseError`), which is a
different constructor from the network error kind — the two failures are
distinguishable.  Both functions are total: the failure is a returned
error value, not a crash. -/
theorem malformed_xml_failure :
    ∀ m : String,
      parse_kpi_properties (Except.error m)
          = Except.error (AppError.malformedDiagram m)
        ∧ extract_named_tasks (Except.error m)
            = Except.error (AppError.malformedDiagram m)
        ∧ ∀ s : String, AppError.malformedDiagram m ≠ AppError.sourceUnavailable s := by
  intro m
  refine ⟨rfl, rfl, fun s h => ?_⟩
  cases h

/-- Witness for `malformed_xml_failure` at a concrete parse failure. -/
theorem malformed_xml_failure_witness :
    parse_kpi_properties (Except.error "no element found: line 1, column 10")
        = Except.error (AppError.malformedDiagram "no element found: line 1, column 10")
      ∧ AppError.malformedDiagram "no element found: line 1, column 10"
          ≠ AppError.sourceUnavailable "404 Client Error" :=
  ⟨(malformed_xml_failure "no element found: line 1, column 10").1,
   (malformed_xml_failure "no element found: line 1, column 10").2.2 "404 Client Error"⟩

/-- C6: `extract_named_tasks` returns exactly the first-occurrence
deduplication of the truthy resolved names of the process elements, in
document order; the result never contains duplicates; and on a diagram
whose element names are A, B, A, C in document order the output is
A, B, C. -/
theorem extract_named_tasks_dedup :
    (∀ root : XmlElem,
        extract_named_tasks (Except.ok root)
            = Except.ok (dedupe (collectNames root))
          ∧ (dedupe (collectNames root)).Nodup
          ∧ dedupe (collectNames root) = firstOccurrenceDedup (collectNames root))
      ∧ collectNames diagramABAC = ["A", "B", "A", "C"]
      ∧ extract_named_tasks (Except.ok diagramABAC) = Except.ok ["A", "B", "C"] := by
  refine ⟨fun root => ⟨rfl, ?_, dedupe_eq_firstOccurrence _⟩, rfl, rfl⟩
  rw [dedupe_eq_firstOccurrence]
  exact nodup_firstOccurrenceDedup _

theorem stemChars_append (x ext : List Char) (h : '.' ∉ ext) :
    stemChars (x ++ '.' :: ext) = x := by
  induction x with
  | nil =>
    show stemChars ('.' :: ext) = []
    simp [stemChars, h]
  | cons c cs ih =>
    show stemChars (c :: (cs ++ '.' :: ext)) = c :: cs
    rw [stemChars, if_neg, ih]
    simp

theorem stringMk_append (a b : List Char) :
    String.mk a ++ String.mk b = String.mk (a ++ b) := rfl

theorem stem_append (x ext : String) (h : '.' ∉ ext.data) :
    stem (x ++ "." ++ ext) = x := by
  obtain ⟨xl⟩ := x
  obtain ⟨el⟩ := ext
  show stem (String.mk xl ++ String.mk ['.'] ++ String.mk el) = String.mk xl
  rw [stringMk_append, stringMk_append]
  show String.mk (stemChars ((xl ++ ['.']) ++ el)) = String.mk xl
  have hassoc : (xl ++ ['.']) ++ el = xl ++ '.' :: el := by simp
  rw [hassoc, stemChars_append xl el h]

/-- C4: the derived KPI artifact path is the conventional one — for a
diagram file `X.ext` (the extension itself containing no dot) in folder
`D`, the artifact path is exactly `D/X_kpis.csv`; in particular
`hr/hr_recruitment.bpmn` maps to `hr/hr_recruitment_kpis.csv`.  `kpi_path`
is a plain function of the selected folder and file name, hence pure and
deterministic. -/
theorem kpi_path_convention :
    (∀ folder x ext : String, '.' ∉ ext.data →
        kpi_path folder (x ++ "." ++ ext) = folder ++ "/" ++ x ++ "_kpis.csv")
      ∧ kpi_path "hr" "hr_recruitment.bpmn" = "hr/hr_recruitment_kpis.csv" := by
  constructor
  · intro folder x ext h
    show folder ++ "/" ++ stem (x ++ "." ++ ext) ++ "_kpis.csv" = _
    rw [stem_append x ext h]
  · rfl

/-- Witness for `kpi_path_convention` at a concrete folder, stem and
extension. -/
theorem kpi_path_convention_witness :
    kpi_path "finance" ("invoice_flow" ++ "." ++ "bpmn")
      = "finance" ++ "/" ++ "invoice_flow" ++ "_kpis.csv" :=
  kpi_path_convention.1 "finance" "invoice_flow" "bpmn" (by decide)

/-- C5 (counterexample): a suggestion-service response that is valid
one-column CSV without any `kpi_key` column parses successfully — the
source never checks for a `kpi_key` header, so the claimed
`UnparseableSuggestion` failure on a missing `kpi_key` column does not
happen. -/
theorem suggestion_parse_without_kpi_key_succeeds :
    suggestionParse "owner\nX" = Except.ok { header := ["owner"], rows := [["X"]] }
      ∧ "kpi_key" ∉ ["owner"] := by
  exact ⟨rfl, by decide⟩

/-- C5 (amended): the suggestion response is parsed as tabular CSV with no
required column: parsing fails only when the text cannot be read as
tabular data (no content, or a data line with more fields than the
header), and any successful parse yields exactly one row per non-blank
data line — in particular on a valid CSV with a `kpi_key` column. -/
theorem suggestion_parse_tabular :
    (∀ (t : String) (c : Csv), suggestionParse t = Except.ok c →
        c.rows.length = csvDataLineCount t)
      ∧ suggestionParse "kpi_key,current_value\nfoo,1\nbar,2"
          = Except.ok { header := ["kpi_key", "current_value"],
                        rows := [["foo", "1"], ["bar", "2"]] }
      ∧ suggestionParse "a,b\n1,2\n1,2,3"
          = Except.error "ParserError: error tokenizing data" := by
  refine ⟨?_, rfl, rfl⟩
  intro t c hc
  unfold suggestionParse read_csv at hc
  unfold csvDataLineCount
  rcases hL : (splitLines (pyStrip t)).filter (fun l => l ≠ "") with _ | ⟨h, rest⟩
  · rw [hL] at hc
    exact absurd hc (by simp)
  · rw [hL] at hc
    dsimp only at hc
    split at hc
    · have hck := Except.ok.inj hc
      subst hck
      simp
    · exact absurd hc (by simp)

/-- Witness for `suggestion_parse_tabular` at a concrete parseable
response. -/
theorem suggestion_parse_tabular_witness :
    ({ header := ["kpi_key", "current_value"],
       rows := [["foo", "1"], ["bar", "2"]] } : Csv).rows.length
      = csvDataLineCount "kpi_key,current_value\nfoo,1\nbar,2" :=
  suggestion_parse_tabular.1 "kpi_key,current_value\nfoo,1\nbar,2" _
    suggestion_parse_tabular.2.1

/-- C7 (counterexample): `head_exists` is not total over network outcomes —
on a timeout the `requests.head` exception propagates (there is no
`try`/`except` in the function), so the caller does not receive a boolean
at all.  The claim that it never raises is therefore false on the code. -/
theorem head_exists_error_propagates :
    head_exists (Except.error NetError.timeout) = Except.error NetError.timeout
      ∧ head_exists (Except.error NetError.timeout) ≠ Except.ok true
      ∧ head_exists (Except.error NetError.timeout) ≠ Except.ok false :=
  ⟨rfl, fun h => Except.noConfusion h, fun h => Except.noConfusion h⟩

/-- C7 (amended): on every completed probe `head_exists` returns a boolean
that is true exactly for status 200 and false for every other status; a
network failure or timeout is not caught and propagates to the caller. -/
theorem head_exists_status :
    (∀ r : HttpResponse, head_exists (Except.ok r) = Except.ok (r.status == 200))
      ∧ (∀ e : NetError, head_exists (Except.error e) = Except.error e)
      ∧ (∀ r : HttpResponse, r.status ≠ 200 →
          head_exists (Except.ok r) = Except.ok false) := by
  refine ⟨fun r => rfl, fun e => rfl, fun r h => ?_⟩
  have hb : (r.status == 200) = false := beq_eq_false_iff_ne.mpr h
  show Except.ok (r.status == 200) = Except.ok false
  rw [hb]

/-- Witness for `head_exists_status` at a concrete non-success status. -/
theorem head_exists_status_witness :
    head_exists (Except.ok { status := 404 }) = Except.ok false :=
  head_exists_status.2.2 { status := 404 } (by decide)

/-- C8 (counterexample): with the private-repository flag set and the
secret store holding an empty-string token — a present token — no
`Authorization` header is attached (`if tok:` rejects the falsy empty
string), contradicting the claim that a present token always yields a
bearer header. -/
theorem auth_headers_empty_token :
    auth_headers_json true (some "") = [("Accept", "application/vnd.github+json")]
      ∧ "Authorization" ∉ (auth_headers_json true (some "")).map Prod.fst :=
  ⟨rfl, by decide⟩

/-- C8 (amended): when the private-repository flag is unset the headers do
not depend on the secret token at all and contain no `Authorization`
entry; when the flag is set and a non-empty token is present, the bearer
`Authorization` header carrying the token is attached. -/
theorem auth_headers_flag_behavior :
    (∀ t₁ t₂ : Option String,
        auth_headers_json false t₁ = auth_headers_json false t₂)
      ∧ (∀ t : Option String,
          "Authorization" ∉ (auth_headers_json false t).map Prod.fst)
      ∧ (∀ tok : String, tok ≠ "" →
          auth_headers_json true (some tok)
            = [("Accept", "application/vnd.github+json"),
               ("Authorization", "Bearer " ++ tok)]) := by
  refine ⟨fun t₁ t₂ => rfl, fun t => ?_, fun tok h => ?_⟩
  · show "Authorization"
        ∉ ([("Accept", "application/vnd.github+json")] : List (String × String)).map Prod.fst
    decide
  · simp [auth_headers_json, h]

/-- Witness for `auth_headers_flag_behavior` at a concrete non-empty
token. -/
theorem auth_headers_flag_behavior_witness :
    auth_headers_json true (some "token123")
      = [("Accept", "application/vnd.github+json"),
         ("Authorization", "Bearer " ++ "token123")] :=
  auth_headers_flag_behavior.2.2 "token123" (by decide)

/-- C10 (counterexample): a process element whose default-namespace `name`
attribute is present but empty is NOT always excluded from
`extract_named_tasks`: when the namespaced `name` attribute is a non-empty
string, the empty default-namespace value falls through to it and the
element is listed under that name.  Here the element has `name=""` and the
namespaced name `"X"`, and the output is `["X"]`, not `[]`. -/
theorem empty_name_not_excluded :
    attrGet emptyNameTask.attrs "name" = some ""
      ∧ attrGet emptyNameTask.attrs nsNameKey = some "X"
      ∧ extract_named_tasks (Except.ok diagramEmptyName) = Except.ok ["X"] :=
  ⟨rfl, rfl, rfl⟩

/-- C10 (amended): an element whose `name` attribute is present but empty
is treated as if the attribute were absent: name resolution falls through
to the namespaced `name` attribute, so the element contributes to
`extract_named_tasks` exactly what the (truthiness-filtered) namespaced
attribute yields — nothing when that attribute is absent or empty — and
its annotation row's `element_name` is the namespaced value or the empty
string, a total `String`, never a null. -/
theorem empty_name_falls_back :
    ∀ attrs : List (String × String), attrGet attrs "name" = some "" →
      truthyOpt (resolveTaskName attrs) = truthyOpt (attrGet attrs nsNameKey)
        ∧ resolveElementName attrs = (attrGet attrs nsNameKey).getD "" := by
  intro attrs h
  constructor
  · rw [resolveTaskName, h]
    rfl
  · rw [resolveElementName, h]
    rfl

/-- Witness for `empty_name_falls_back` at the concrete element with
`name=""`. -/
theorem empty_name_falls_back_witness :
    truthyOpt (resolveTaskName emptyNameTask.attrs)
        = truthyOpt (attrGet emptyNameTask.attrs nsNameKey)
      ∧ resolveElementName emptyNameTask.attrs
          = (attrGet emptyNameTask.attrs nsNameKey).getD "" :=
  empty_name_falls_back emptyNameTask.attrs rfl

/-- C9: when the existence probe answered true but the CSV fetch/parse
failed, the failure is caught: `kpis_df` stays `None`, a warning is
surfaced, and the KPI Mapping decision falls through to the annotation
table when it has rows, to the no-data state otherwise — the run is not
halted. -/
theorem kpi_load_failure_falls_through :
    ∀ (e : AppError) (m : List AnnotationRow),
      loadKpis true (Except.error e) = (none, true)
        ∧ reconcile (loadKpis true (Except.error e)).1 m
            = (if m.isEmpty then ReconciledView.noData
               else ReconciledView.annotationTable m) := by
  intro e m
  exact ⟨rfl, rfl⟩

end ProcessFlowDashboard
